import Mathlib

/-!
Verification of the CyberArk API command harness (Go).

Shallow embedding of the repository code:
  - `loadConfig`, `RegisterWorkflow`, `printUsage`, `verifyConnectivity`, `main`
    from `main.go`,
  - the `APIClient` HTTP wrapper (`Get`, `Post`, `Put`, `Delete`),
  - the path resolution done through the Go standard library
    (`filepath.Join`, which lexically cleans its result).

External collaborators (OS, JSON codec, HTTP transport, flag library) are
modelled as explicit function parameters so the code under verification stays
exactly the logic of the repository.
-/

namespace Harness

/-- The configuration record (struct `Config` in `main.go`), with the JSON
field mapping `api_secret`, `base_url`, `username`, `timeout`. -/
structure Config where
  APISecret : String
  BaseURL : String
  Username : String
  Timeout : Int
deriving DecidableEq, Repr

/-- Result of `os.Stat` + `ioutil.ReadFile` on one file: the permission bits
(`info.Mode().Perm()`, a value in `0..0o777`) and the file content.  A
filesystem maps each path to an optional such record; `none` models a
stat failure (missing file). -/
structure FileInfo where
  perm : Nat
  content : String
deriving DecidableEq, Repr

/-- A filesystem, as seen by `loadConfig`. -/
abbrev FileSys : Type := String → Option FileInfo

/-- The JSON codec (`json.Unmarshal` into `Config`), an external collaborator:
`none` models a decode failure. -/
abbrev JsonCodec : Type := String → Option Config

/- ---------------------------------------------------------------- -/
/- Path handling: Go `path/filepath` (Unix rules), used by `loadConfig`
   for `~` expansion: `filepath.Join(home, path[1:])`.  `Join` joins the
   non-empty elements with a slash and applies `Clean`, the purely lexical
   canonicalisation (collapse repeated slashes, drop `.`, resolve `..`). -/

/-- Split a character list into its slash-separated components. -/
def splitPath : List Char → List Char → List (List Char)
  | [], acc => [acc.reverse]
  | c :: rest, acc =>
    if c = '/' then acc.reverse :: splitPath rest []
    else splitPath rest (c :: acc)

/-- One step of `Clean`: fold a component onto the stack of kept components
(stack is most-recent-first).  Empty and `.` components vanish; `..` pops a
kept component, stays at the root of a rooted path, and accumulates at the
front of a relative path. -/
def cleanStep (rooted : Bool) (acc : List (List Char)) (comp : List Char) :
    List (List Char) :=
  if comp = [] ∨ comp = ['.'] then acc
  else if comp = ['.', '.'] then
    match acc with
    | [] => if rooted then [] else [['.', '.']]
    | top :: rest => if top = ['.', '.'] then comp :: acc else rest
  else comp :: acc

/-- Join components back with slashes. -/
def joinComps : List (List Char) → List Char
  | [] => []
  | [c] => c
  | c :: rest => c ++ '/' :: joinComps rest

/-- Go `filepath.Clean` (Unix): lexical canonical form of a path. -/
def goClean (p : String) : String :=
  match p.data with
  | [] => "."
  | c :: rest =>
    let rooted := c = '/'
    let comps := ((splitPath (c :: rest) []).foldl (cleanStep rooted) []).reverse
    let body := joinComps comps
    if rooted then String.mk ('/' :: body)
    else if body = [] then "." else String.mk body

/-- Go `filepath.Join(a, b)`: drop empty elements, join with a slash, `Clean`
the result; all-empty input gives the empty string. -/
def goJoin (a b : String) : String :=
  if a = "" then (if b = "" then "" else goClean b)
  else goClean (a ++ "/" ++ b)

/-- The check `len(path) > 0 && path[0] == '~'` from `loadConfig`. -/
def hasTilde (p : String) : Bool :=
  match p.data with
  | c :: _ => c = '~'
  | [] => false

/-- Go `path[1:]`: the path without its first character (`~` is one byte). -/
def strTail (p : String) : String := String.mk p.data.tail

/-- Octal rendering of the permission bits, as the `%o` verb prints them. -/
def octString (n : Nat) : String := String.mk (Nat.toDigits 8 n)

/-- The path `loadConfig` actually accesses: `~`-expansion through
`filepath.Join(home, path[1:])` when the path starts with `~`; `home = none`
models a failing `os.UserHomeDir`.  (Error texts elide the wrapped OS error.) -/
def resolvePath (home : Option String) (path : String) : Except String String :=
  if hasTilde path then
    match home with
    | none => .error "failed to get home directory"
    | some h => .ok (goJoin h (strTail path))
  else .ok path

/-- `loadConfig` from the point after path resolution: stat, permission
check (must be exactly 0600), read + JSON decode, required-field
validation. -/
def loadConfigResolved (fs : FileSys) (codec : JsonCodec) (rpath : String) :
    Except String Config :=
  match fs rpath with
  | none => .error "failed to stat config file"
  | some info =>
    if info.perm ≠ 0o600 then
      .error ("config file must have 0600 permissions, has " ++ octString info.perm)
    else
      match codec info.content with
      | none => .error "failed to parse config JSON"
      | some config =>
        if config.APISecret = "" then .error "api_secret is required in config file"
        else if config.BaseURL = "" then .error "base_url is required in config file"
        else .ok config

/-- `loadConfig` from `main.go`. -/
def loadConfig (fs : FileSys) (codec : JsonCodec) (home : Option String)
    (path : String) : Except String Config :=
  match resolvePath home path with
  | .error e => .error e
  | .ok rpath => loadConfigResolved fs codec rpath

/- ---------------------------------------------------------------- -/
/- HTTP client wrapper (`APIClient` in the client source file). -/

/-- An outgoing HTTP request as the wrapper builds it: method, full URL,
headers (in the order `Header.Set` is called), optional body. -/
structure HttpRequest where
  method : String
  url : String
  headers : List (String × String)
  body : Option String
deriving DecidableEq, Repr

/-- An HTTP response once the body has been read: status code and raw body.
The Go status code is an `int`. -/
structure HttpResponse where
  statusCode : Int
  body : String
deriving DecidableEq, Repr

/-- The transport (`http.Client.Do` followed by reading the body), an
external collaborator: `.error` models a network or read failure. -/
abbrev Transport : Type := HttpRequest → Except String HttpResponse

/-- The API client: its configuration and its transport. -/
structure APIClient where
  config : Config
  transport : Transport

/-- The two headers every wrapper request sets. -/
def stdHeaders (cfg : Config) : List (String × String) :=
  [("Authorization", cfg.APISecret), ("Content-Type", "application/json")]

/-- Header lookup by name (first match). -/
def headerGet (req : HttpRequest) (key : String) : Option String :=
  (req.headers.find? (fun p => p.1 == key)).map Prod.snd

/-- The request `Get` builds: `GET`, URL `base + "/" + endpoint`, the two
standard headers, no body. -/
def getRequest (cfg : Config) (endpoint : String) : HttpRequest :=
  { method := "GET", url := cfg.BaseURL ++ "/" ++ endpoint
    headers := stdHeaders cfg, body := none }

/-- The request `Post` builds, with the marshalled payload as body. -/
def postRequest (cfg : Config) (endpoint : String) (jsonData : String) :
    HttpRequest :=
  { method := "POST", url := cfg.BaseURL ++ "/" ++ endpoint
    headers := stdHeaders cfg, body := some jsonData }

/-- The request `Put` builds, with the marshalled payload as body. -/
def putRequest (cfg : Config) (endpoint : String) (jsonData : String) :
    HttpRequest :=
  { method := "PUT", url := cfg.BaseURL ++ "/" ++ endpoint
    headers := stdHeaders cfg, body := some jsonData }

/-- The request `Delete` builds: no body. -/
def deleteRequest (cfg : Config) (endpoint : String) : HttpRequest :=
  { method := "DELETE", url := cfg.BaseURL ++ "/" ++ endpoint
    headers := stdHeaders cfg, body := none }

/-- `APIClient.Get`: build the request, run it, and return the body on a
2xx status, or the diagnostic error on any other status. -/
def APIClient.Get (c : APIClient) (endpoint : String) : Except String String :=
  match c.transport (getRequest c.config endpoint) with
  | .error e => .error ("request failed: " ++ e)
  | .ok resp =>
    if resp.statusCode < 200 ∨ resp.statusCode ≥ 300 then
      .error ("API error (status " ++ toString resp.statusCode ++ "): " ++ resp.body)
    else .ok resp.body

/-- `APIClient.Post`: marshal the payload (`json.Marshal`, passed in as the
codec for the payload type), build and run the request, check the status. -/
def APIClient.Post {α : Type} (c : APIClient) (marshal : α → Option String)
    (endpoint : String) (payload : α) : Except String String :=
  match marshal payload with
  | none => .error "failed to marshal payload"
  | some jsonData =>
    match c.transport (postRequest c.config endpoint jsonData) with
    | .error e => .error ("request failed: " ++ e)
    | .ok resp =>
      if resp.statusCode < 200 ∨ resp.statusCode ≥ 300 then
        .error ("API error (status " ++ toString resp.statusCode ++ "): " ++ resp.body)
      else .ok resp.body

/-- `APIClient.Put`: same shape as `Post` with method `PUT`. -/
def APIClient.Put {α : Type} (c : APIClient) (marshal : α → Option String)
    (endpoint : String) (payload : α) : Except String String :=
  match marshal payload with
  | none => .error "failed to marshal payload"
  | some jsonData =>
    match c.transport (putRequest c.config endpoint jsonData) with
    | .error e => .error ("request failed: " ++ e)
    | .ok resp =>
      if resp.statusCode < 200 ∨ resp.statusCode ≥ 300 then
        .error ("API error (status " ++ toString resp.statusCode ++ "): " ++ resp.body)
      else .ok resp.body

/-- `APIClient.Delete`: returns no body; reads the body only to build the
error text on a non-2xx status. -/
def APIClient.Delete (c : APIClient) (endpoint : String) : Except String Unit :=
  match c.transport (deleteRequest c.config endpoint) with
  | .error e => .error ("request failed: " ++ e)
  | .ok resp =>
    if resp.statusCode < 200 ∨ resp.statusCode ≥ 300 then
      .error ("API error (status " ++ toString resp.statusCode ++ "): " ++ resp.body)
    else .ok ()

/- ---------------------------------------------------------------- -/
/- Workflow registry and dispatcher (`main.go`). -/

/-- A workflow handler: `Execute(config, args) error` (the returned error
text, `none` on success) and `Help() string`.  A handler writing its own
output is outside this model; only its error result is observed. -/
structure Workflow where
  exec : Config → List String → Option String
  help : String

/-- The registry.  The Go program uses a map with assignment; the model keeps
the registration history most-recent-first and looks up the first match,
which is observationally the map (last write wins). -/
abbrev Registry : Type := List (String × Workflow)

/-- `RegisterWorkflow(name, workflow)`: map assignment. -/
def RegisterWorkflow (reg : Registry) (name : String) (workflow : Workflow) :
    Registry := (name, workflow) :: reg

/-- Map lookup (`WorkflowRegistry[workflowName]` with the comma-ok idiom). -/
def lookupWorkflow (reg : Registry) (name : String) : Option Workflow :=
  (List.find? (fun p => p.1 == name) reg).map Prod.snd

/-- The single-quote character, used in the unknown-workflow error text. -/
def sq : String := String.singleton (Char.ofNat 39)

/-- The names `printUsage` ranges over.  Go map iteration order is
unspecified; the model lists each registered name once, most recent first. -/
def registryNames (reg : Registry) : List String :=
  (List.map Prod.fst reg).dedup

/-- The lines `printUsage` writes to standard output (a `\n` inside a
`Println` argument becomes an empty line). -/
def printUsageLines (reg : Registry) : List String :=
  ["CyberArk API Command Harness",
   "",
   "Usage:",
   "  cyberark [--global-options] workflow_name [--workflow-options]",
   "",
   "Global Options:",
   "  -c, --config PATH    Path to configuration file (default: ~/.cyberark_api)",
   "  -h, --help           Show this help message",
   "",
   "Built-in Workflows:",
   "  verify               Verify API connectivity",
   "",
   "Registered Workflows:"]
  ++ List.map (fun n => "  " ++ n) (registryNames reg)
  ++ ["",
      "For workflow-specific help:",
      "  cyberark workflow_name --help"]

/-- Outcome of parsing a workflow FlagSet whose only flags are the boolean
`help`/`h` pair: true iff the first argument is a help flag.  The flag
library is an external collaborator; only the argument lists the claims
exercise (no flags, or a leading help flag) are relied on. -/
def parseHelpFlag : List String → Bool
  | [] => false
  | a :: _ => a = "-h" ∨ a = "--h" ∨ a = "-help" ∨ a = "--help"

/-- The help text of the built-in verify workflow. -/
def verifyHelpLines : List String :=
  ["Verify Workflow - Test CyberArk API connectivity",
   "",
   "Usage:",
   "  cyberark verify [options]",
   "",
   "Options:",
   "  -h, --help    Show this help message"]

/-- `verifyConnectivity(config, args)`: the lines written to standard output
and the returned error (always `none`). -/
def verifyConnectivity (config : Config) (args : List String) :
    List String × Option String :=
  if parseHelpFlag args then (verifyHelpLines, none)
  else
    (["Verifying CyberArk API connectivity...",
      "Base URL: " ++ config.BaseURL,
      "API Secret: [REDACTED]",
      "",
      "✓ Configuration loaded successfully",
      "✓ API credentials present",
      "",
      "Note: Actual API connectivity test not yet implemented"], none)

/-- Observable outcome of one run of the program: exit status, the lines on
standard output and on standard error, the names of registry handlers whose
`Execute` ran, and whether the built-in verify workflow ran. -/
structure ProcResult where
  exitCode : Nat
  stdout : List String
  stderr : List String
  invoked : List String
  ranBuiltinVerify : Bool
deriving DecidableEq, Repr

/-- `main` from the point after the global flag parse: `configPath` and
`showHelp` are the parsed global flags, `args` the remaining positional
arguments (`flag.Args()`). -/
def mainGo (reg : Registry) (fs : FileSys) (codec : JsonCodec)
    (home : Option String) (configPath : String) (showHelp : Bool)
    (args : List String) : ProcResult :=
  if showHelp then
    { exitCode := 0, stdout := printUsageLines reg, stderr := []
      invoked := [], ranBuiltinVerify := false }
  else
    match args with
    | [] =>
      { exitCode := 1
        stdout := "Error: workflow name required" :: printUsageLines reg
        stderr := [], invoked := [], ranBuiltinVerify := false }
    | workflowName :: workflowArgs =>
      match loadConfig fs codec home configPath with
      | .error e =>
        { exitCode := 1, stdout := []
          stderr := ["Error loading config: " ++ e]
          invoked := [], ranBuiltinVerify := false }
      | .ok config =>
        if workflowName = "verify" then
          match verifyConnectivity config workflowArgs with
          | (out, some e) =>
            { exitCode := 1, stdout := out, stderr := ["Error: " ++ e]
              invoked := [], ranBuiltinVerify := true }
          | (out, none) =>
            { exitCode := 0, stdout := out, stderr := []
              invoked := [], ranBuiltinVerify := true }
        else
          match lookupWorkflow reg workflowName with
          | none =>
            { exitCode := 1, stdout := printUsageLines reg
              stderr := ["Error: unknown workflow " ++ sq ++ workflowName ++ sq]
              invoked := [], ranBuiltinVerify := false }
          | some workflow =>
            match workflow.exec config workflowArgs with
            | some e =>
              { exitCode := 1, stdout := []
                stderr := ["Error executing workflow: " ++ e]
                invoked := [workflowName], ranBuiltinVerify := false }
            | none =>
              { exitCode := 0, stdout := [], stderr := []
                invoked := [workflowName], ranBuiltinVerify := false }

/- ---------------------------------------------------------------- -/
/- Concrete environments used to exercise the definitions. -/

/-- The empty filesystem: every stat fails. -/
def fsNone : FileSys := fun _ => none

/-- A filesystem where every path holds a file with permission bits 0644. -/
def fsPerm644 : FileSys := fun _ => some ⟨0o644, "irrelevant"⟩

/-- A filesystem where every path holds a 0600 file. -/
def fsGood : FileSys := fun _ => some ⟨0o600, "cfgjson"⟩

/-- A codec that always fails to decode. -/
def codecNone : JsonCodec := fun _ => none

/-- A codec producing a fully valid configuration. -/
def codecGood : JsonCodec := fun _ => some ⟨"sekrit", "https://h/api", "", 0⟩

/-- The same configuration as `codecGood` except for the API secret. -/
def codecGood2 : JsonCodec := fun _ => some ⟨"othersecret", "https://h/api", "", 0⟩

/-- A codec producing a configuration with an empty `api_secret`. -/
def codecNoSecret : JsonCodec := fun _ => some ⟨"", "https://h/api", "", 0⟩

/-- A codec producing a configuration with an empty `base_url`. -/
def codecNoBase : JsonCodec := fun _ => some ⟨"sekrit", "", "", 0⟩

/-- A trivial workflow handler that always succeeds. -/
def wfOne : Workflow := ⟨fun _ _ => none, "first handler"⟩

/-- A trivial workflow handler that always fails. -/
def wfTwo : Workflow := ⟨fun _ _ => some "boom", "second handler"⟩

/-- A transport that always answers 404 with body `not found`. -/
def transport404 : Transport := fun _ => .ok ⟨404, "not found"⟩

/-- A transport that always answers 204 with an empty body. -/
def transport204 : Transport := fun _ => .ok ⟨204, ""⟩

/- ---------------------------------------------------------------- -/
/- Theorems. -/

/-- Claim C1: for every configuration file whose permission bits are not
exactly 0600, `loadConfig` returns an error naming the actual permission
bits (printed in octal), and never a parsed config — whatever the file
content and whatever the codec would make of it. -/
theorem loadConfig_perm_check (fs : FileSys) (codec : JsonCodec)
    (home : Option String) (path rp : String) (info : FileInfo)
    (hres : resolvePath home path = .ok rp) (hfs : fs rp = some info)
    (hperm : info.perm ≠ 0o600) :
    loadConfig fs codec home path =
      .error ("config file must have 0600 permissions, has " ++ octString info.perm)
    ∧ ∀ cfg, loadConfig fs codec home path ≠ .ok cfg := by
  have h1 : loadConfig fs codec home path =
      .error ("config file must have 0600 permissions, has " ++ octString info.perm) := by
    simp only [loadConfig, hres]
    simp only [loadConfigResolved, hfs]
    rw [if_pos hperm]
  exact ⟨h1, fun cfg hc => by rw [h1] at hc; exact Except.noConfusion hc⟩

/-- Witness for C1 at a concrete 0644 file. -/
theorem loadConfig_perm_check_witness :
    resolvePath none "/etc/conf" = .ok "/etc/conf"
    ∧ fsPerm644 "/etc/conf" = some ⟨0o644, "irrelevant"⟩
    ∧ (0o644 : Nat) ≠ 0o600
    ∧ loadConfig fsPerm644 codecNone none "/etc/conf" =
        .error ("config file must have 0600 permissions, has " ++ octString 0o644)
    ∧ octString 0o644 = "644" :=
  ⟨rfl, rfl, by decide,
   (loadConfig_perm_check fsPerm644 codecNone none "/etc/conf" "/etc/conf"
      ⟨0o644, "irrelevant"⟩ rfl rfl (by decide)).1, rfl⟩

/-- A successful `loadConfigResolved` only ever yields a config whose
required fields are non-empty. -/
theorem loadConfigResolved_ok_shape (fs : FileSys) (codec : JsonCodec)
    (rpath : String) (cfg : Config)
    (h : loadConfigResolved fs codec rpath = .ok cfg) :
    cfg.APISecret ≠ "" ∧ cfg.BaseURL ≠ "" := by
  unfold loadConfigResolved at h
  split at h
  · exact absurd h (by simp)
  · split at h
    · exact absurd h (by simp)
    · split at h
      · exact absurd h (by simp)
      · split at h
        · exact absurd h (by simp)
        · split at h
          · exact absurd h (by simp)
          · rename_i hs hb
            injection h with h
            subst h
            exact ⟨hs, hb⟩

/-- Claim C3: a file decoding to a config with an empty `api_secret` (or a
non-empty secret but empty `base_url`) makes `loadConfig` fail with the
validation error naming that field, `api_secret` checked first; and a
successful load never carries an empty required field. -/
theorem loadConfig_required_fields :
    (∀ (fs : FileSys) (codec : JsonCodec) (home : Option String)
       (path rp : String) (info : FileInfo) (cfg : Config),
       resolvePath home path = .ok rp → fs rp = some info →
       info.perm = 0o600 → codec info.content = some cfg →
       (cfg.APISecret = "" →
         loadConfig fs codec home path = .error "api_secret is required in config file")
       ∧ (cfg.APISecret ≠ "" → cfg.BaseURL = "" →
         loadConfig fs codec home path = .error "base_url is required in config file"))
    ∧ (∀ (fs : FileSys) (codec : JsonCodec) (home : Option String)
       (path : String) (cfg : Config),
       loadConfig fs codec home path = .ok cfg →
       cfg.APISecret ≠ "" ∧ cfg.BaseURL ≠ "") := by
  constructor
  · intro fs codec home path rp info cfg hres hfs hperm hc
    have hnp : ¬ info.perm ≠ 0o600 := by simp [hperm]
    constructor
    · intro hs
      simp only [loadConfig, hres]
      simp only [loadConfigResolved, hfs]
      rw [if_neg hnp]
      simp only [hc]
      rw [if_pos hs]
    · intro hs hb
      simp only [loadConfig, hres]
      simp only [loadConfigResolved, hfs]
      rw [if_neg hnp]
      simp only [hc]
      rw [if_neg hs, if_pos hb]
  · intro fs codec home path cfg h
    unfold loadConfig at h
    split at h
    · exact absurd h (by simp)
    · rename_i rp hres
      exact loadConfigResolved_ok_shape fs codec rp cfg h

/-- Witness for C3: a config file decoding to an empty `api_secret`, one
decoding to an empty `base_url`, and a fully valid one. -/
theorem loadConfig_required_fields_witness :
    loadConfig fsGood codecNoSecret none "/c" = .error "api_secret is required in config file"
    ∧ loadConfig fsGood codecNoBase none "/c" = .error "base_url is required in config file"
    ∧ ("sekrit" : String) ≠ "" ∧ ("https://h/api" : String) ≠ "" :=
  ⟨((loadConfig_required_fields.1 fsGood codecNoSecret none "/c" "/c"
      ⟨0o600, "cfgjson"⟩ ⟨"", "https://h/api", "", 0⟩ rfl rfl rfl rfl).1 rfl),
   ((loadConfig_required_fields.1 fsGood codecNoBase none "/c" "/c"
      ⟨0o600, "cfgjson"⟩ ⟨"sekrit", "", "", 0⟩ rfl rfl rfl rfl).2 (by decide) rfl),
   (loadConfig_required_fields.2 fsGood codecGood none "/c"
      ⟨"sekrit", "https://h/api", "", 0⟩ rfl)⟩

/-- A path starting with `~` resolves to `filepath.Join(home, rest)`, which
is the lexical canonical form of `home ++ "/" ++ rest`. -/
theorem resolvePath_tilde (home s : String) (hh : home ≠ "") :
    resolvePath (some home) ("~" ++ s) = .ok (goClean (home ++ "/" ++ s)) := by
  obtain ⟨sl⟩ := s
  have ht : hasTilde ("~" ++ String.mk sl) = true := rfl
  have htail : strTail ("~" ++ String.mk sl) = String.mk sl := rfl
  simp only [resolvePath, ht, if_true, htail]
  unfold goJoin
  rw [if_neg hh]

/-- A path whose first character is not `~` resolves to itself. -/
theorem resolvePath_plain (home : Option String) (p : String)
    (hp : hasTilde p = false) :
    resolvePath home p = .ok p := by
  simp [resolvePath, hp]

/-- Claim C8: with `home` the (non-empty, not `~`-led) home directory,
`loadConfig` on `"~" ++ s` resolves — before any file access — to the
canonical form of `home ++ "/" ++ s`; consequently, on any filesystem that
does not distinguish a path from its lexical canonical form (no symlink
trickery), `loadConfig ("~" ++ s)` and `loadConfig (home ++ "/" ++ s)`
access the same file and return the same result. -/
theorem loadConfig_tilde_equiv (fs : FileSys) (codec : JsonCodec)
    (home s : String) (hh : home ≠ "") (hth : hasTilde home = false)
    (hfs : ∀ p, fs p = fs (goClean p)) :
    resolvePath (some home) ("~" ++ s) = .ok (goClean (home ++ "/" ++ s))
    ∧ loadConfig fs codec (some home) ("~" ++ s)
        = loadConfig fs codec (some home) (home ++ "/" ++ s) := by
  have h1 := resolvePath_tilde home s hh
  have hth2 : hasTilde (home ++ "/" ++ s) = false := by
    obtain ⟨hl⟩ := home
    obtain ⟨sl⟩ := s
    cases hl with
    | nil => exact absurd rfl hh
    | cons c t => exact hth
  have h2 := resolvePath_plain (some home) (home ++ "/" ++ s) hth2
  refine ⟨h1, ?_⟩
  simp only [loadConfig, h1, h2]
  simp only [loadConfigResolved]
  rw [← hfs (home ++ "/" ++ s)]

/-- Witness for C8 at `home = "/home/u"`, `s = "/.x"`, on the empty
filesystem (which trivially respects canonicalisation). -/
theorem loadConfig_tilde_equiv_witness :
    ("/home/u" : String) ≠ ""
    ∧ hasTilde "/home/u" = false
    ∧ resolvePath (some "/home/u") ("~" ++ "/.x") = .ok "/home/u/.x"
    ∧ loadConfig fsNone codecNone (some "/home/u") ("~" ++ "/.x")
        = loadConfig fsNone codecNone (some "/home/u") ("/home/u" ++ "/" ++ "/.x") :=
  ⟨by decide, rfl,
   (loadConfig_tilde_equiv fsNone codecNone "/home/u" "/.x" (by decide) rfl
      (fun _ => rfl)).1,
   (loadConfig_tilde_equiv fsNone codecNone "/home/u" "/.x" (by decide) rfl
      (fun _ => rfl)).2⟩

/-- Claim C7: registering twice under one name leaves exactly the second
handler resolvable under that name, and lookups under any other name are
unchanged. -/
theorem register_last_wins (reg : Registry) (name : String) (h1 h2 : Workflow) :
    lookupWorkflow (RegisterWorkflow (RegisterWorkflow reg name h1) name h2) name
      = some h2
    ∧ ∀ other, other ≠ name →
        lookupWorkflow (RegisterWorkflow (RegisterWorkflow reg name h1) name h2) other
          = lookupWorkflow reg other := by
  constructor
  · simp [lookupWorkflow, RegisterWorkflow]
  · intro other hne
    have hb : (name == other) = false := by
      simp only [beq_eq_false_iff_ne]
      exact fun he => hne he.symm
    simp [lookupWorkflow, RegisterWorkflow, List.find?, hb]

/-- Witness for C7 with two concrete handlers and a second, untouched name. -/
theorem register_last_wins_witness :
    lookupWorkflow (RegisterWorkflow (RegisterWorkflow [] "a" wfOne) "a" wfTwo) "a"
      = some wfTwo
    ∧ ("b" : String) ≠ "a"
    ∧ lookupWorkflow (RegisterWorkflow (RegisterWorkflow [] "a" wfOne) "a" wfTwo) "b"
        = lookupWorkflow [] "b" :=
  ⟨(register_last_wins [] "a" wfOne wfTwo).1, by decide,
   (register_last_wins [] "a" wfOne wfTwo).2 "b" (by decide)⟩

/-- Claim C5 (amended): with no positional argument, `main` prints the
"workflow name required" error followed by the usage text — on standard
output, not the error stream — and exits 1, with no config access (the
filesystem and codec are arbitrary and unused) and no workflow invoked. -/
theorem main_no_args (reg : Registry) (fs : FileSys) (codec : JsonCodec)
    (home : Option String) (configPath : String) :
    mainGo reg fs codec home configPath false [] =
      { exitCode := 1
        stdout := "Error: workflow name required" :: printUsageLines reg
        stderr := [], invoked := [], ranBuiltinVerify := false } := rfl

/-- Counterexample to claim C5 as stated: at a concrete no-argument
invocation the error stream stays empty; the error line goes to standard
output instead. -/
theorem main_no_args_stream_counterexample :
    (mainGo [] fsNone codecNone none "~/.cyberark_api" false []).stderr = []
    ∧ (mainGo [] fsNone codecNone none "~/.cyberark_api" false []).stdout.head?
        = some "Error: workflow name required"
    ∧ (mainGo [] fsNone codecNone none "~/.cyberark_api" false []).exitCode = 1 :=
  ⟨rfl, rfl, rfl⟩

/-- Claim C9: an argument that is neither `verify` nor registered makes
`main` print the unknown-workflow error (naming the argument) on the error
stream and the usage text on standard output, exit 1, and invoke no
handler. -/
theorem main_unknown_workflow (reg : Registry) (fs : FileSys)
    (codec : JsonCodec) (home : Option String) (configPath : String)
    (name : String) (wargs : List String) (cfg : Config)
    (hname : name ≠ "verify") (hlook : lookupWorkflow reg name = none)
    (hload : loadConfig fs codec home configPath = .ok cfg) :
    mainGo reg fs codec home configPath false (name :: wargs) =
      { exitCode := 1, stdout := printUsageLines reg
        stderr := ["Error: unknown workflow " ++ sq ++ name ++ sq]
        invoked := [], ranBuiltinVerify := false } := by
  simp only [mainGo, Bool.false_eq_true, if_false, hload]
  rw [if_neg hname]
  simp only [hlook]

/-- Witness for C9: the name `nope` against the empty registry and a
well-formed configuration. -/
theorem main_unknown_workflow_witness :
    ("nope" : String) ≠ "verify"
    ∧ lookupWorkflow [] "nope" = none
    ∧ loadConfig fsGood codecGood none "/c" = .ok ⟨"sekrit", "https://h/api", "", 0⟩
    ∧ mainGo [] fsGood codecGood none "/c" false ["nope"] =
        { exitCode := 1, stdout := printUsageLines []
          stderr := ["Error: unknown workflow " ++ sq ++ "nope" ++ sq]
          invoked := [], ranBuiltinVerify := false } :=
  ⟨by decide, rfl, rfl,
   main_unknown_workflow [] fsGood codecGood none "/c" "nope" []
     ⟨"sekrit", "https://h/api", "", 0⟩ (by decide) rfl rfl⟩

/-- `verifyConnectivity` always returns a nil error. -/
theorem verifyConnectivity_no_error (config : Config) (args : List String) :
    verifyConnectivity config args = ((verifyConnectivity config args).1, none) := by
  unfold verifyConnectivity
  split <;> rfl

/-- Claim C10: the built-in name `verify` shadows the registry — even with a
handler registered under `verify`, dispatching `verify` runs the built-in
connectivity check and invokes no registry handler. -/
theorem main_verify_shadows (reg : Registry) (fs : FileSys)
    (codec : JsonCodec) (home : Option String) (configPath : String)
    (h : Workflow) (wargs : List String) (cfg : Config)
    (_hlook : lookupWorkflow reg "verify" = some h)
    (hload : loadConfig fs codec home configPath = .ok cfg) :
    (mainGo reg fs codec home configPath false ("verify" :: wargs)).ranBuiltinVerify
      = true
    ∧ (mainGo reg fs codec home configPath false ("verify" :: wargs)).invoked = [] := by
  have hm : mainGo reg fs codec home configPath false ("verify" :: wargs) =
      { exitCode := 0, stdout := (verifyConnectivity cfg wargs).1, stderr := []
        invoked := [], ranBuiltinVerify := true } := by
    simp only [mainGo, Bool.false_eq_true, if_false, hload, if_pos rfl]
    rw [verifyConnectivity_no_error cfg wargs]
    simp
  rw [hm]
  exact ⟨rfl, rfl⟩

/-- Witness for C10 with a handler concretely registered under `verify`. -/
theorem main_verify_shadows_witness :
    lookupWorkflow [("verify", wfOne)] "verify" = some wfOne
    ∧ loadConfig fsGood codecGood none "/c" = .ok ⟨"sekrit", "https://h/api", "", 0⟩
    ∧ (mainGo [("verify", wfOne)] fsGood codecGood none "/c" false
        ["verify"]).ranBuiltinVerify = true
    ∧ (mainGo [("verify", wfOne)] fsGood codecGood none "/c" false
        ["verify"]).invoked = [] :=
  ⟨rfl, rfl,
   (main_verify_shadows [("verify", wfOne)] fsGood codecGood none "/c" wfOne []
      ⟨"sekrit", "https://h/api", "", 0⟩ rfl rfl).1,
   (main_verify_shadows [("verify", wfOne)] fsGood codecGood none "/c" wfOne []
      ⟨"sekrit", "https://h/api", "", 0⟩ rfl rfl).2⟩

/-- The full run of the `verify` subcommand with no workflow flags, once the
configuration has loaded. -/
theorem main_verify_run (reg : Registry) (fs : FileSys) (codec : JsonCodec)
    (home : Option String) (configPath : String) (cfg : Config)
    (hload : loadConfig fs codec home configPath = .ok cfg) :
    mainGo reg fs codec home configPath false ["verify"] =
      { exitCode := 0
        stdout := ["Verifying CyberArk API connectivity...",
                   "Base URL: " ++ cfg.BaseURL,
                   "API Secret: [REDACTED]",
                   "",
                   "✓ Configuration loaded successfully",
                   "✓ API credentials present",
                   "",
                   "Note: Actual API connectivity test not yet implemented"]
        stderr := [], invoked := [], ranBuiltinVerify := true } := by
  simp only [mainGo, Bool.false_eq_true, if_false, hload, if_pos rfl]
  rfl

/-- Claim C6: a flag-less `verify` run prints the base URL line and the
redacted secret line and exits 0, and its entire standard output is the
same for any two runs whose loaded configs agree except on the API secret
(the secret value never influences the output). -/
theorem main_verify_redacts (reg : Registry) (fs : FileSys) (codec : JsonCodec)
    (home : Option String) (configPath : String) (cfg : Config)
    (hload : loadConfig fs codec home configPath = .ok cfg) :
    (mainGo reg fs codec home configPath false ["verify"]).exitCode = 0
    ∧ ("Base URL: " ++ cfg.BaseURL)
        ∈ (mainGo reg fs codec home configPath false ["verify"]).stdout
    ∧ "API Secret: [REDACTED]"
        ∈ (mainGo reg fs codec home configPath false ["verify"]).stdout
    ∧ ∀ (fs' : FileSys) (codec' : JsonCodec) (home' : Option String)
        (configPath' : String) (cfg' : Config),
        loadConfig fs' codec' home' configPath' = .ok cfg' →
        cfg'.BaseURL = cfg.BaseURL →
        (mainGo reg fs' codec' home' configPath' false ["verify"]).stdout
          = (mainGo reg fs codec home configPath false ["verify"]).stdout := by
  rw [main_verify_run reg fs codec home configPath cfg hload]
  refine ⟨rfl, by simp, by simp, ?_⟩
  intro fs' codec' home' configPath' cfg' hload' hB
  rw [main_verify_run reg fs' codec' home' configPath' cfg' hload', hB]

/-- Witness for C6: two runs with the same base URL but different secrets,
producing identical output, the two required lines present, exit 0. -/
theorem main_verify_redacts_witness :
    loadConfig fsGood codecGood none "/c" = .ok ⟨"sekrit", "https://h/api", "", 0⟩
    ∧ (mainGo [] fsGood codecGood none "/c" false ["verify"]).exitCode = 0
    ∧ ("Base URL: " ++ "https://h/api")
        ∈ (mainGo [] fsGood codecGood none "/c" false ["verify"]).stdout
    ∧ "API Secret: [REDACTED]"
        ∈ (mainGo [] fsGood codecGood none "/c" false ["verify"]).stdout
    ∧ loadConfig fsGood codecGood2 none "/c" = .ok ⟨"othersecret", "https://h/api", "", 0⟩
    ∧ (mainGo [] fsGood codecGood2 none "/c" false ["verify"]).stdout
        = (mainGo [] fsGood codecGood none "/c" false ["verify"]).stdout :=
  ⟨rfl,
   (main_verify_redacts [] fsGood codecGood none "/c"
      ⟨"sekrit", "https://h/api", "", 0⟩ rfl).1,
   (main_verify_redacts [] fsGood codecGood none "/c"
      ⟨"sekrit", "https://h/api", "", 0⟩ rfl).2.1,
   (main_verify_redacts [] fsGood codecGood none "/c"
      ⟨"sekrit", "https://h/api", "", 0⟩ rfl).2.2.1,
   rfl,
   (main_verify_redacts [] fsGood codecGood none "/c"
      ⟨"sekrit", "https://h/api", "", 0⟩ rfl).2.2.2 fsGood codecGood2 none "/c"
      ⟨"othersecret", "https://h/api", "", 0⟩ rfl rfl⟩

/-- Claim C2: each client operation succeeds exactly on a status in
`[200, 300)`; any other status yields the diagnostic error built from the
numeric code and the raw body; a 204 response with empty body is a
success. -/
theorem client_status_handling (c : APIClient) (endpoint : String)
    (resp : HttpResponse) :
    (c.transport (getRequest c.config endpoint) = .ok resp →
      (200 ≤ resp.statusCode ∧ resp.statusCode < 300 →
        c.Get endpoint = .ok resp.body)
      ∧ (resp.statusCode < 200 ∨ 300 ≤ resp.statusCode →
        c.Get endpoint =
          .error ("API error (status " ++ toString resp.statusCode ++ "): " ++ resp.body))
      ∧ (resp.statusCode = 204 → resp.body = "" → c.Get endpoint = .ok ""))
    ∧ (∀ (α : Type) (marshal : α → Option String) (payload : α) (jsonData : String),
        marshal payload = some jsonData →
        c.transport (postRequest c.config endpoint jsonData) = .ok resp →
        (200 ≤ resp.statusCode ∧ resp.statusCode < 300 →
          c.Post marshal endpoint payload = .ok resp.body)
        ∧ (resp.statusCode < 200 ∨ 300 ≤ resp.statusCode →
          c.Post marshal endpoint payload =
            .error ("API error (status " ++ toString resp.statusCode ++ "): " ++ resp.body)))
    ∧ (∀ (α : Type) (marshal : α → Option String) (payload : α) (jsonData : String),
        marshal payload = some jsonData →
        c.transport (putRequest c.config endpoint jsonData) = .ok resp →
        (200 ≤ resp.statusCode ∧ resp.statusCode < 300 →
          c.Put marshal endpoint payload = .ok resp.body)
        ∧ (resp.statusCode < 200 ∨ 300 ≤ resp.statusCode →
          c.Put marshal endpoint payload =
            .error ("API error (status " ++ toString resp.statusCode ++ "): " ++ resp.body)))
    ∧ (c.transport (deleteRequest c.config endpoint) = .ok resp →
        (200 ≤ resp.statusCode ∧ resp.statusCode < 300 →
          c.Delete endpoint = .ok ())
        ∧ (resp.statusCode < 200 ∨ 300 ≤ resp.statusCode →
          c.Delete endpoint =
            .error ("API error (status " ++ toString resp.statusCode ++ "): " ++ resp.body))) := by
  refine ⟨?_, ?_, ?_, ?_⟩
  · intro htr
    refine ⟨?_, ?_, ?_⟩
    · intro hin
      simp only [APIClient.Get, htr]
      rw [if_neg (by omega)]
    · intro hout
      simp only [APIClient.Get, htr]
      rw [if_pos (by omega)]
    · intro h204 hbody
      simp only [APIClient.Get, htr]
      rw [if_neg (by omega), hbody]
  · intro α marshal payload jsonData hm htr
    refine ⟨?_, ?_⟩
    · intro hin
      simp only [APIClient.Post, hm, htr]
      rw [if_neg (by omega)]
    · intro hout
      simp only [APIClient.Post, hm, htr]
      rw [if_pos (by omega)]
  · intro α marshal payload jsonData hm htr
    refine ⟨?_, ?_⟩
    · intro hin
      simp only [APIClient.Put, hm, htr]
      rw [if_neg (by omega)]
    · intro hout
      simp only [APIClient.Put, hm, htr]
      rw [if_pos (by omega)]
  · intro htr
    refine ⟨?_, ?_⟩
    · intro hin
      simp only [APIClient.Delete, htr]
      rw [if_neg (by omega)]
    · intro hout
      simp only [APIClient.Delete, htr]
      rw [if_pos (by omega)]

/-- Witness for C2: a 404 / `not found` response produces the diagnostic
error on all four operations, and a 204 / empty-body response is a
success. -/
theorem client_status_handling_witness :
    (APIClient.mk ⟨"s", "https://h/api", "", 0⟩ transport404).Get "accounts"
      = .error ("API error (status " ++ toString (404 : Int) ++ "): " ++ "not found")
    ∧ (APIClient.mk ⟨"s", "https://h/api", "", 0⟩ transport404).Post
        (fun s : String => some s) "accounts" "payload"
      = .error ("API error (status " ++ toString (404 : Int) ++ "): " ++ "not found")
    ∧ (APIClient.mk ⟨"s", "https://h/api", "", 0⟩ transport404).Put
        (fun s : String => some s) "accounts" "payload"
      = .error ("API error (status " ++ toString (404 : Int) ++ "): " ++ "not found")
    ∧ (APIClient.mk ⟨"s", "https://h/api", "", 0⟩ transport404).Delete "accounts"
      = .error ("API error (status " ++ toString (404 : Int) ++ "): " ++ "not found")
    ∧ (APIClient.mk ⟨"s", "https://h/api", "", 0⟩ transport204).Get "accounts"
      = .ok "" :=
  ⟨((client_status_handling
      (APIClient.mk ⟨"s", "https://h/api", "", 0⟩ transport404) "accounts"
      ⟨404, "not found"⟩).1 rfl).2.1 (by decide),
   ((client_status_handling
      (APIClient.mk ⟨"s", "https://h/api", "", 0⟩ transport404) "accounts"
      ⟨404, "not found"⟩).2.1 String (fun s => some s) "payload" "payload" rfl rfl).2
      (by decide),
   ((client_status_handling
      (APIClient.mk ⟨"s", "https://h/api", "", 0⟩ transport404) "accounts"
      ⟨404, "not found"⟩).2.2.1 String (fun s => some s) "payload" "payload" rfl rfl).2
      (by decide),
   ((client_status_handling
      (APIClient.mk ⟨"s", "https://h/api", "", 0⟩ transport404) "accounts"
      ⟨404, "not found"⟩).2.2.2 rfl).2 (by decide),
   ((client_status_handling
      (APIClient.mk ⟨"s", "https://h/api", "", 0⟩ transport204) "accounts"
      ⟨204, ""⟩).1 rfl).2.2 rfl rfl⟩

/-- Claim C4: every operation sends its request to `base ++ "/" ++ endpoint`
with the `Authorization` header holding the raw secret (no scheme added)
and `Content-Type: application/json`; the URL is plain concatenation, with
no normalisation or encoding. -/
theorem client_request_shape (cfg : Config) (endpoint : String)
    (jsonData : String) :
    ((getRequest cfg endpoint).url = cfg.BaseURL ++ "/" ++ endpoint
     ∧ headerGet (getRequest cfg endpoint) "Authorization" = some cfg.APISecret
     ∧ headerGet (getRequest cfg endpoint) "Content-Type" = some "application/json")
    ∧ ((postRequest cfg endpoint jsonData).url = cfg.BaseURL ++ "/" ++ endpoint
     ∧ headerGet (postRequest cfg endpoint jsonData) "Authorization" = some cfg.APISecret
     ∧ headerGet (postRequest cfg endpoint jsonData) "Content-Type" = some "application/json")
    ∧ ((putRequest cfg endpoint jsonData).url = cfg.BaseURL ++ "/" ++ endpoint
     ∧ headerGet (putRequest cfg endpoint jsonData) "Authorization" = some cfg.APISecret
     ∧ headerGet (putRequest cfg endpoint jsonData) "Content-Type" = some "application/json")
    ∧ ((deleteRequest cfg endpoint).url = cfg.BaseURL ++ "/" ++ endpoint
     ∧ headerGet (deleteRequest cfg endpoint) "Authorization" = some cfg.APISecret
     ∧ headerGet (deleteRequest cfg endpoint) "Content-Type" = some "application/json") :=
  ⟨⟨rfl, rfl, rfl⟩, ⟨rfl, rfl, rfl⟩, ⟨rfl, rfl, rfl⟩, ⟨rfl, rfl, rfl⟩⟩

end Harness
